import Mathlib

set_option maxRecDepth 2500

/-!
Verification development for the nanobot coordination core: the priority
file lock (`nanobot/utils/file_lock.py`), the SelfAgent observation buffers,
reflection scheduler and bounded agent loop (`nanobot/agent/selfagent.py`),
and the locked file tools (`nanobot/agent/tools/selfagent_tools.py`).

The Python code is shallowly embedded: the filesystem visible to one lock
call is a state record (`FsState`) holding the marker-file content and flags
saying whether the read / write / unlink I/O operations succeed (the Python
code swallows the corresponding exceptions); one pass of the 100 ms polling
loop of `FileLock.acquire` is the pure function `FileLock.acquireIter`, and
the whole call is `FileLock.acquireLoop` with the number of poll iterations
permitted by the timeout as fuel.
-/

/-- Decidable substring test, embedding Python's `pat in s` on strings. -/
def strContains (s pat : String) : Bool :=
  (List.range (s.data.length + 1)).any fun i => pat.data.isPrefixOf (s.data.drop i)

/-- Per-character lower-casing, embedding Python's `str.lower()` on the
ASCII file paths involved. -/
def strLower (s : String) : String :=
  String.mk (s.data.map Char.toLower)

/-- The marker-file content written by `FileLock.acquire`:
`f"{os.getpid()}|{time.time()}|{'main' if self.is_main_agent else 'selfagent'}"`. -/
def lockContent (pid ts : Nat) (isMain : Bool) : String :=
  toString pid ++ "|" ++ toString ts ++ "|" ++ (if isMain then "main" else "selfagent")

/-- The filesystem state seen by one lock call: the marker file's content
(`none` = absent), and whether marker read / write / unlink I/O succeeds
(the Python code wraps each in `try/except: pass`). -/
structure FsState where
  marker : Option String
  readOk : Bool
  writeOk : Bool
  deleteOk : Bool
deriving DecidableEq, Repr

/-- The mutable state of one `FileLock` object: its `is_main_agent` flag and
its `_acquired` flag. -/
structure FileLock where
  is_main_agent : Bool
  acquired : Bool
deriving DecidableEq, Repr

/-- One pass of the polling `while` loop of `FileLock.acquire` (the part
before the 100 ms sleep), returning the new filesystem state, the new lock
state, and whether this pass returned `True`.

Mirrors the source: if the lock file does not exist, try to create it with
`pid|timestamp|role` content (a failed write is swallowed, and the
main-agent branch then finds no lock file); otherwise, only a main agent
may force-acquire, and only when the existing content reads successfully
and contains the substring `"selfagent"`. -/
def FileLock.acquireIter (lk : FileLock) (pid ts : Nat) (fs : FsState) :
    FsState × FileLock × Bool :=
  match fs.marker with
  | none =>
    if fs.writeOk then
      ({fs with marker := some (lockContent pid ts lk.is_main_agent)},
       {lk with acquired := true}, true)
    else
      (fs, lk, false)
  | some content =>
    if lk.is_main_agent then
      if fs.readOk then
        if strContains content "selfagent" then
          if fs.writeOk then
            ({fs with marker := some (lockContent pid ts true)},
             {lk with acquired := true}, true)
          else (fs, lk, false)
        else (fs, lk, false)
      else (fs, lk, false)
    else (fs, lk, false)

/-- The full `FileLock.acquire` polling loop: `fuel` is the number of poll
iterations the `time.time() - start_time < self.timeout` guard admits;
when it runs out the call returns `False`. -/
def FileLock.acquireLoop (lk : FileLock) (pid ts : Nat) (fs : FsState) :
    Nat → FsState × FileLock × Bool
  | 0 => (fs, lk, false)
  | Nat.succ n =>
    match FileLock.acquireIter lk pid ts fs with
    | (fs1, lk1, true) => (fs1, lk1, true)
    | (fs1, lk1, false) => FileLock.acquireLoop lk1 pid ts fs1 n

/-- The release method: `if self._acquired and self.lockfile.exists():`
unlink the marker (a failed unlink is swallowed) and clear `_acquired`.
It never inspects the marker's content. -/
def FileLock.release (lk : FileLock) (fs : FsState) : FsState × FileLock :=
  if lk.acquired && fs.marker.isSome then
    ({fs with marker := if fs.deleteOk then none else fs.marker},
     {lk with acquired := false})
  else (fs, lk)

/-!
Observation buffers of `SelfAgent`. Both `_on_message` and
`_on_main_state_change` append a record under `_buffer_lock` and then trim:
`if len(buf) > 1000: buf = buf[-500:]`. The append-and-trim is the pure
`bufAppend`; a sequence of publishes is a fold.
-/

/-- One buffered publish: append the event, then, if the length now exceeds
1000, keep only the last 500 entries (`buf[-500:]`). -/
def bufAppend {α : Type} (buf : List α) (e : α) : List α :=
  let b := buf ++ [e]
  if b.length > 1000 then b.drop (b.length - 500) else b

/-- A sequence of publishes into one buffer. -/
def bufPublishAll {α : Type} (buf : List α) (es : List α) : List α :=
  es.foldl bufAppend buf

/-- The pair of observation buffers owned by `SelfAgent`
(`_message_buffer`, `_state_buffer`), generic in the event payloads. -/
structure BufState (μ σ : Type) where
  msgs : List μ
  states : List σ
deriving DecidableEq, Repr

/-- The `_on_message` monitor callback: append one message record under the
buffer mutex, with the size cap. -/
def onMessage {μ σ : Type} (s : BufState μ σ) (m : μ) : BufState μ σ :=
  { s with msgs := bufAppend s.msgs m }

/-- The `_on_main_state_change` monitor callback: append one state record
under the buffer mutex, with the size cap. -/
def onStateChange {μ σ : Type} (s : BufState μ σ) (e : σ) : BufState μ σ :=
  { s with states := bufAppend s.states e }

/-- The drain at the top of `_perform_reflection`: under `_buffer_lock`,
copy both buffers and clear them; returns the snapshot and the new state. -/
def drainAll {μ σ : Type} (s : BufState μ σ) : (List μ × List σ) × BufState μ σ :=
  ((s.msgs, s.states), ⟨[], []⟩)

/-- An arbitrary interleaving of the two monitor callbacks. -/
def publishEvents {μ σ : Type} (s : BufState μ σ) (es : List (μ ⊕ σ)) : BufState μ σ :=
  es.foldl (fun s e => match e with
    | Sum.inl m => onMessage s m
    | Sum.inr t => onStateChange s t) s

/-- The empty-batch guard of `_perform_reflection`: drain both buffers; if
both snapshots are empty, return without building prompts or running the
agent loop. The `Bool` records whether the reasoning/tool loop was invoked. -/
def performReflection {μ σ : Type} (s : BufState μ σ) : BufState μ σ × Bool :=
  let d := drainAll s
  if d.1.1.isEmpty && d.1.2.isEmpty then (d.2, false) else (d.2, true)

/-- What the scheduler observes on one wake-up of `_reflection_loop`:
either a cancellation (`asyncio.CancelledError` during the sleep or the
cycle), or a normal cycle whose reasoning/tool work raises iff `fails`. -/
inductive TickEvent where
  | cancel
  | run (fails : Bool)
deriving DecidableEq, Repr

/-- One `_perform_reflection` call with its failure point made explicit:
the drain happens first (under the buffer mutex), then the empty-batch
guard, then the prompt building and agent loop, which is where an
exception (`fails = true`) can be raised. The buffers are already cleared
whatever happens afterwards. -/
def performReflectionE {μ σ : Type} (s : BufState μ σ) (fails : Bool) :
    BufState μ σ × Except String Bool :=
  let d := drainAll s
  (d.2,
    if d.1.1.isEmpty && d.1.2.isEmpty then Except.ok false
    else if fails then Except.error "Reflection error" else Except.ok true)

/-- The `while self._running` body of `_reflection_loop`, driven by the list
of tick events: `CancelledError` breaks out of the loop (result flag
`true`), any other exception from a cycle is caught and logged and the loop
continues; exhausting the event list models the loop still running. -/
def reflectionLoop {μ σ : Type} (s : BufState μ σ) :
    List TickEvent → BufState μ σ × Bool
  | [] => (s, false)
  | TickEvent.cancel :: _ => (s, true)
  | TickEvent.run fails :: rest => reflectionLoop (performReflectionE s fails).1 rest

/-- A tool call carried by a provider response (`tool_call.id / .name /
.arguments`). -/
structure ToolCall where
  id : String
  name : String
  arguments : String
deriving DecidableEq, Repr

/-- A provider chat response: optional text content plus tool calls. -/
structure ChatResponse where
  content : Option String
  toolCalls : List ToolCall
deriving DecidableEq, Repr

/-- Modelled from the spec: `response.has_tool_calls` comes from the
provider layer (`nanobot/providers/base.py`, not under `src/`); per the
spec's "if the response carries tool calls", it holds iff the tool-call
list is non-empty. -/
def ChatResponse.hasToolCalls (r : ChatResponse) : Bool :=
  !r.toolCalls.isEmpty

/-- A conversation entry of `_run_agent_loop` (`role`, `content`, and the
`tool_call_id` used by tool-result entries, empty otherwise). -/
structure ChatMsg where
  role : String
  content : String
  toolCallId : String
deriving DecidableEq, Repr

/-- The agent loop `SelfAgent._run_agent_loop`: up to `max_iterations` provider calls; a
response without tool calls returns its content (or `""`); otherwise each
tool call is executed in order and its result appended to the conversation;
after the last permitted iteration the sentinel string is returned. The
provider and the tool registry are opaque external dependencies, passed as
functions; the returned `Nat` counts the provider calls performed. -/
def runAgentLoop (provider : List ChatMsg → ChatResponse)
    (execTool : String → String → String) :
    Nat → List ChatMsg → String × Nat
  | 0, _ => ("Max iterations reached", 0)
  | Nat.succ n, msgs =>
    let resp := provider msgs
    if resp.hasToolCalls = false then
      (resp.content.getD "", 1)
    else
      let msgs2 := msgs ++ resp.toolCalls.map fun tc =>
        ChatMsg.mk "tool" (execTool tc.name tc.arguments) tc.id
      let r := runAgentLoop provider execTool n msgs2
      (r.1, r.2 + 1)

/-- The content actually written by `LockedWriteFileTool.execute` for a
resolved path: `if "memory" in str(filepath).lower() and "MEMORY.md" in
str(filepath):` prepend the subconscious tag unless the stripped content
already starts with it. -/
def lockedWriteContent (filepath content : String) : String :=
  if strContains (strLower filepath) "memory" && strContains filepath "MEMORY.md" then
    if content.trim.startsWith "潜意识:" then content
    else "潜意识: " ++ content
  else content

/-- Two SUBORDINATE lock objects contending for the same resource in the
cooperative single-thread model: the shared filesystem state plus each
caller's `FileLock` object. -/
structure TwoSubs where
  fs : FsState
  a : FileLock
  b : FileLock
deriving DecidableEq, Repr

/-- Caller A runs one poll iteration of its `acquire` call. -/
def stepA (pid ts : Nat) (s : TwoSubs) : TwoSubs :=
  let r := FileLock.acquireIter s.a pid ts s.fs
  ⟨r.1, r.2.1, s.b⟩

/-- Caller B runs one poll iteration of its `acquire` call. -/
def stepB (pid ts : Nat) (s : TwoSubs) : TwoSubs :=
  let r := FileLock.acquireIter s.b pid ts s.fs
  ⟨r.1, s.a, r.2.1⟩

/-- The cooperative step relation: at each suspension point either caller
may run its next poll iteration (with whatever pid/timestamp the
environment supplies); no release of the resource's marker occurs. -/
inductive SubStep : TwoSubs → TwoSubs → Prop where
  | pollA (pid ts : Nat) (s : TwoSubs) : SubStep s (stepA pid ts s)
  | pollB (pid ts : Nat) (s : TwoSubs) : SubStep s (stepB pid ts s)

/-- The mutual-exclusion invariant for two SUBORDINATE contenders: an
acquired caller implies the marker is present, and never are both
acquired. -/
def MutexInv (s : TwoSubs) : Prop :=
  s.a.is_main_agent = false ∧ s.b.is_main_agent = false ∧
  (s.a.acquired = true → s.fs.marker.isSome = true) ∧
  (s.b.acquired = true → s.fs.marker.isSome = true) ∧
  ¬(s.a.acquired = true ∧ s.b.acquired = true)

theorem bufAppend_of_le {α : Type} (buf : List α) (e : α)
    (h : buf.length + 1 ≤ 1000) : bufAppend buf e = buf ++ [e] := by
  unfold bufAppend
  rw [if_neg]
  simp only [List.length_append, List.length_cons, List.length_nil]
  omega

theorem bufAppend_overflow {α : Type} (buf : List α) (e : α)
    (h : 1000 < buf.length + 1) :
    bufAppend buf e = (buf ++ [e]).drop (buf.length + 1 - 500) := by
  unfold bufAppend
  rw [if_pos]
  all_goals simp only [List.length_append, List.length_cons, List.length_nil]
  omega

theorem length_bufAppend_le {α : Type} (buf : List α) (e : α) :
    (bufAppend buf e).length ≤ 1000 := by
  simp only [bufAppend]
  split
  · rename_i h
    simp only [List.length_drop, List.length_append, List.length_cons, List.length_nil] at h ⊢
    omega
  · rename_i h
    omega

theorem length_bufPublishAll_le {α : Type} (es : List α) (buf : List α)
    (h : buf.length ≤ 1000) : (bufPublishAll buf es).length ≤ 1000 := by
  induction es generalizing buf with
  | nil => exact h
  | cons e es ih =>
    simp only [bufPublishAll, List.foldl_cons] at *
    exact ih (bufAppend buf e) (length_bufAppend_le buf e)

theorem bufPublishAll_of_le {α : Type} (es : List α) (buf : List α)
    (h : buf.length + es.length ≤ 1000) : bufPublishAll buf es = buf ++ es := by
  induction es generalizing buf with
  | nil => simp [bufPublishAll]
  | cons e es ih =>
    simp only [bufPublishAll, List.foldl_cons, List.length_cons] at *
    rw [bufAppend_of_le buf e (by omega), ih (buf ++ [e]) (by simp; omega)]
    simp

theorem publishEvents_msgs_le {μ σ : Type} (es : List (μ ⊕ σ)) (s : BufState μ σ)
    (hm : s.msgs.length ≤ 1000) (hs : s.states.length ≤ 1000) :
    (publishEvents s es).msgs.length ≤ 1000 ∧ (publishEvents s es).states.length ≤ 1000 := by
  induction es generalizing s with
  | nil => exact ⟨hm, hs⟩
  | cons e es ih =>
    cases e with
    | inl m =>
      simp only [publishEvents, List.foldl_cons] at *
      exact ih (onMessage s m) (length_bufAppend_le _ _) hs
    | inr t =>
      simp only [publishEvents, List.foldl_cons] at *
      exact ih (onStateChange s t) hm (length_bufAppend_le _ _)

theorem bufPublishAll_range_1200 :
    bufPublishAll ([] : List Nat) (List.range 1200) = List.range' 501 699 := by
  have a0 : List.range' (1000 : Nat) 1 = [1000] := rfl
  have h1 : List.range 1200 = (List.range' 0 1000 ++ [1000]) ++ List.range' 1001 199 := by
    have a1 : List.range' (0 : Nat) 1000 ++ List.range' 1000 1 = List.range' 0 1001 :=
      List.range'_append_1 0 1000 1
    rw [a0] at a1
    have a2 : List.range' (0 : Nat) 1001 ++ List.range' 1001 199 = List.range' 0 1200 :=
      List.range'_append_1 0 1001 199
    rw [List.range_eq_range', ← a2, ← a1]
  have h2 : bufPublishAll ([] : List Nat) (List.range' 0 1000) = List.range' 0 1000 := by
    apply bufPublishAll_of_le
    simp
  have h3 : bufAppend (List.range' (0 : Nat) 1000) 1000 = List.range' 501 500 := by
    rw [bufAppend_overflow _ _ (by simp)]
    have a1 : List.range' (0 : Nat) 1000 ++ [1000] = List.range' 0 501 ++ List.range' 501 500 := by
      have b1 : List.range' (0 : Nat) 1000 ++ List.range' 1000 1 = List.range' 0 1001 :=
        List.range'_append_1 0 1000 1
      rw [a0] at b1
      have b2 : List.range' (0 : Nat) 501 ++ List.range' 501 500 = List.range' 0 1001 :=
        List.range'_append_1 0 501 500
      rw [b2, ← b1]
    rw [a1]
    simp only [List.length_range']
    rw [List.drop_left' (by simp)]
  have h4 : bufPublishAll (List.range' (501 : Nat) 500) (List.range' 1001 199) =
      List.range' 501 500 ++ List.range' 1001 199 := by
    apply bufPublishAll_of_le
    simp
  simp only [bufPublishAll] at h2 h4 ⊢
  rw [h1, List.foldl_append, List.foldl_append, h2, List.foldl_cons, List.foldl_nil, h3, h4]
  exact List.range'_append_1 501 500 199

theorem foldl_onMessage {μ σ : Type} (es : List μ) (s : BufState μ σ) :
    List.foldl onMessage s es = ⟨bufPublishAll s.msgs es, s.states⟩ := by
  induction es generalizing s with
  | nil => simp [bufPublishAll]
  | cons e es ih => simp [List.foldl_cons, onMessage, ih, bufPublishAll]

theorem foldl_onStateChange {μ σ : Type} (es : List σ) (s : BufState μ σ) :
    List.foldl onStateChange s es = ⟨s.msgs, bufPublishAll s.states es⟩ := by
  induction es generalizing s with
  | nil => simp [bufPublishAll]
  | cons e es ih => simp [List.foldl_cons, onStateChange, ih, bufPublishAll]

example : bufPublishAll ([] : List Nat) (List.range 5) = [0, 1, 2, 3, 4] := by decide

example :
    FileLock.acquireIter ⟨true, false⟩ 2 20 ⟨some "1|10|selfagent", true, true, true⟩ =
      (⟨some "2|20|main", true, true, true⟩, ⟨true, true⟩, true) := by decide

example :
    FileLock.acquireLoop ⟨false, false⟩ 1 10 ⟨some "2|20|main", true, true, true⟩ 3 =
      (⟨some "2|20|main", true, true, true⟩, ⟨false, false⟩, false) := by decide

theorem subIter_noop (lk : FileLock) (pid ts : Nat) (fs : FsState) (c : String)
    (hsub : lk.is_main_agent = false) (hm : fs.marker = some c) :
    FileLock.acquireIter lk pid ts fs = (fs, lk, false) := by
  simp [FileLock.acquireIter, hm, hsub]

theorem subLoop_noop (lk : FileLock) (pid ts : Nat) (fs : FsState) (c : String)
    (hsub : lk.is_main_agent = false) (hm : fs.marker = some c) (fuel : Nat) :
    FileLock.acquireLoop lk pid ts fs fuel = (fs, lk, false) := by
  induction fuel with
  | zero => rfl
  | succ n ih =>
    rw [FileLock.acquireLoop, subIter_noop lk pid ts fs c hsub hm]
    exact ih

theorem mainIter_override (lk : FileLock) (pid ts : Nat) (fs : FsState) (c : String)
    (hmain : lk.is_main_agent = true) (hm : fs.marker = some c)
    (hr : fs.readOk = true) (hw : fs.writeOk = true)
    (hc : strContains c "selfagent" = true) :
    FileLock.acquireIter lk pid ts fs =
      ({fs with marker := some (lockContent pid ts true)}, {lk with acquired := true}, true) := by
  simp [FileLock.acquireIter, hm, hmain, hr, hw, hc]

theorem mainIter_blocked (lk : FileLock) (pid ts : Nat) (fs : FsState) (c : String)
    (hmain : lk.is_main_agent = true) (hm : fs.marker = some c)
    (h : fs.readOk = false ∨ strContains c "selfagent" = false) :
    FileLock.acquireIter lk pid ts fs = (fs, lk, false) := by
  cases h with
  | inl h => simp [FileLock.acquireIter, hm, hmain, h]
  | inr h => simp [FileLock.acquireIter, hm, hmain, h]

theorem mainLoop_blocked (lk : FileLock) (pid ts : Nat) (fs : FsState) (c : String)
    (hmain : lk.is_main_agent = true) (hm : fs.marker = some c)
    (h : fs.readOk = false ∨ strContains c "selfagent" = false) (fuel : Nat) :
    FileLock.acquireLoop lk pid ts fs fuel = (fs, lk, false) := by
  induction fuel with
  | zero => rfl
  | succ n ih =>
    rw [FileLock.acquireLoop, mainIter_blocked lk pid ts fs c hmain hm h]
    exact ih

/-- Claim C1: a PRIVILEGED (`is_main_agent = True`) `acquire` against a
marker tagged `selfagent` succeeds on the very first poll iteration
(before any 100 ms sleep), overwriting the marker with its own
`pid|timestamp|main` record; a SUBORDINATE `acquire` against a held marker
never overwrites it and returns `False` once the timeout's poll budget is
exhausted. -/
theorem C1_priority_override (lk sub : FileLock) (pid ts pid2 ts2 : Nat)
    (fs fs2 : FsState) (c c2 : String) (fuel fuel2 : Nat)
    (hmain : lk.is_main_agent = true)
    (hm : fs.marker = some c) (hr : fs.readOk = true) (hw : fs.writeOk = true)
    (hc : strContains c "selfagent" = true)
    (hsub : sub.is_main_agent = false) (hm2 : fs2.marker = some c2) :
    FileLock.acquireIter lk pid ts fs =
      ({fs with marker := some (lockContent pid ts true)}, {lk with acquired := true}, true) ∧
    FileLock.acquireLoop lk pid ts fs (fuel + 1) =
      ({fs with marker := some (lockContent pid ts true)}, {lk with acquired := true}, true) ∧
    FileLock.acquireLoop sub pid2 ts2 fs2 fuel2 = (fs2, sub, false) := by
  refine ⟨mainIter_override lk pid ts fs c hmain hm hr hw hc, ?_,
    subLoop_noop sub pid2 ts2 fs2 c2 hsub hm2 fuel2⟩
  rw [FileLock.acquireLoop, mainIter_override lk pid ts fs c hmain hm hr hw hc]

/-- Witness for C1 at a concrete SUBORDINATE-held marker and a concrete
PRIVILEGED-held marker. -/
theorem C1_priority_override_witness :
    FileLock.acquireIter ⟨true, false⟩ 2 20 ⟨some "1|10|selfagent", true, true, true⟩ =
      (⟨some (lockContent 2 20 true), true, true, true⟩, ⟨true, true⟩, true) ∧
    FileLock.acquireLoop ⟨true, false⟩ 2 20 ⟨some "1|10|selfagent", true, true, true⟩ (4 + 1) =
      (⟨some (lockContent 2 20 true), true, true, true⟩, ⟨true, true⟩, true) ∧
    FileLock.acquireLoop ⟨false, false⟩ 3 30 ⟨some "2|20|main", true, true, true⟩ 7 =
      (⟨some "2|20|main", true, true, true⟩, ⟨false, false⟩, false) :=
  C1_priority_override ⟨true, false⟩ ⟨false, false⟩ 2 20 3 30
    ⟨some "1|10|selfagent", true, true, true⟩ ⟨some "2|20|main", true, true, true⟩
    "1|10|selfagent" "2|20|main" 4 7 rfl rfl rfl rfl (by decide) rfl rfl

theorem MutexInv_step (s s' : TwoSubs) (h : MutexInv s) (hs : SubStep s s') :
    MutexInv s' := by
  obtain ⟨ha, hb, hma, hmb, hnot⟩ := h
  cases hs with
  | pollA pid ts s =>
    cases hmk : s.fs.marker with
    | some c =>
      have heq : stepA pid ts s = ⟨s.fs, s.a, s.b⟩ := by
        simp [stepA, subIter_noop s.a pid ts s.fs c ha hmk]
      rw [heq]
      exact ⟨ha, hb, hma, hmb, hnot⟩
    | none =>
      have hbf : s.b.acquired = false := by
        cases hb' : s.b.acquired with
        | false => rfl
        | true => have := hmb hb'; rw [hmk] at this; simp at this
      by_cases hw : s.fs.writeOk = true
      · have heq : stepA pid ts s =
            ⟨{s.fs with marker := some (lockContent pid ts s.a.is_main_agent)},
             {s.a with acquired := true}, s.b⟩ := by
          simp [stepA, FileLock.acquireIter, hmk, hw]
        rw [heq]
        exact ⟨ha, hb, fun _ => rfl, fun _ => rfl, by simp [hbf]⟩
      · have hw' : s.fs.writeOk = false := by simpa using hw
        have heq : stepA pid ts s = ⟨s.fs, s.a, s.b⟩ := by
          simp [stepA, FileLock.acquireIter, hmk, hw']
        rw [heq]
        exact ⟨ha, hb, hma, hmb, hnot⟩
  | pollB pid ts s =>
    cases hmk : s.fs.marker with
    | some c =>
      have heq : stepB pid ts s = ⟨s.fs, s.a, s.b⟩ := by
        simp [stepB, subIter_noop s.b pid ts s.fs c hb hmk]
      rw [heq]
      exact ⟨ha, hb, hma, hmb, hnot⟩
    | none =>
      have haf : s.a.acquired = false := by
        cases ha' : s.a.acquired with
        | false => rfl
        | true => have := hma ha'; rw [hmk] at this; simp at this
      by_cases hw : s.fs.writeOk = true
      · have heq : stepB pid ts s =
            ⟨{s.fs with marker := some (lockContent pid ts s.b.is_main_agent)},
             s.a, {s.b with acquired := true}⟩ := by
          simp [stepB, FileLock.acquireIter, hmk, hw]
        rw [heq]
        exact ⟨ha, hb, fun _ => rfl, fun _ => rfl, by simp [haf]⟩
      · have hw' : s.fs.writeOk = false := by simpa using hw
        have heq : stepB pid ts s = ⟨s.fs, s.a, s.b⟩ := by
          simp [stepB, FileLock.acquireIter, hmk, hw']
        rw [heq]
        exact ⟨ha, hb, hma, hmb, hnot⟩

/-- Claim C2: in the cooperative single-thread model, starting from two
unacquired SUBORDINATE callers, no reachable state has both callers'
`acquire` succeeded without any intervening release (the step relation has
no release step); moreover a SUBORDINATE poll iteration against an
existing marker only sleeps and retries — it changes neither the marker
nor the lock and does not succeed. -/
theorem C2_mutual_exclusion (s0 s : TwoSubs)
    (hinit : s0.a.is_main_agent = false ∧ s0.b.is_main_agent = false ∧
      s0.a.acquired = false ∧ s0.b.acquired = false)
    (hsteps : Relation.ReflTransGen SubStep s0 s)
    (lk : FileLock) (pid ts : Nat) (fs : FsState) (c : String)
    (hsub : lk.is_main_agent = false) (hm : fs.marker = some c) :
    ¬(s.a.acquired = true ∧ s.b.acquired = true) ∧
    FileLock.acquireIter lk pid ts fs = (fs, lk, false) := by
  have hinv : MutexInv s := by
    have h0 : MutexInv s0 := by
      obtain ⟨h1, h2, h3, h4⟩ := hinit
      exact ⟨h1, h2, by simp [h3], by simp [h4], by simp [h3]⟩
    induction hsteps with
    | refl => exact h0
    | tail hst hstep ih => exact MutexInv_step _ _ ih hstep
  exact ⟨hinv.2.2.2.2, subIter_noop lk pid ts fs c hsub hm⟩

/-- Witness for C2: one concrete poll step from the initial state, and a
concrete blocked SUBORDINATE iteration. -/
theorem C2_mutual_exclusion_witness :
    ¬((stepA 1 10 ⟨⟨none, true, true, true⟩, ⟨false, false⟩, ⟨false, false⟩⟩).a.acquired = true ∧
      (stepA 1 10 ⟨⟨none, true, true, true⟩, ⟨false, false⟩, ⟨false, false⟩⟩).b.acquired = true) ∧
    FileLock.acquireIter ⟨false, false⟩ 1 10 ⟨some "1|10|selfagent", true, true, true⟩ =
      (⟨some "1|10|selfagent", true, true, true⟩, ⟨false, false⟩, false) :=
  C2_mutual_exclusion ⟨⟨none, true, true, true⟩, ⟨false, false⟩, ⟨false, false⟩⟩ _
    ⟨rfl, rfl, rfl, rfl⟩
    (Relation.ReflTransGen.single (SubStep.pollA 1 10 _))
    ⟨false, false⟩ 1 10 ⟨some "1|10|selfagent", true, true, true⟩ "1|10|selfagent" rfl rfl

/-- Claim C3: under any interleaving of publishes into the two observation
buffers, a buffer that starts within the 1000-entry cap stays within it at
every observation point; and a publish into a full (length-1000) buffer
leaves exactly the most recent 500 entries, as the suffix of the appended
sequence (original relative order). -/
theorem C3_buffer_bound_and_overflow (μ σ : Type)
    (s s1 : BufState μ σ) (es : List (μ ⊕ σ)) (m : μ) (t : σ)
    (hm : s.msgs.length ≤ 1000) (hs : s.states.length ≤ 1000)
    (h1 : s1.msgs.length = 1000) (h2 : s1.states.length = 1000) :
    (publishEvents s es).msgs.length ≤ 1000 ∧
    (publishEvents s es).states.length ≤ 1000 ∧
    (onMessage s1 m).msgs = (s1.msgs ++ [m]).drop 501 ∧
    (onMessage s1 m).msgs.length = 500 ∧
    (onStateChange s1 t).states = (s1.states ++ [t]).drop 501 ∧
    (onStateChange s1 t).states.length = 500 := by
  obtain ⟨b1, b2⟩ := publishEvents_msgs_le es s hm hs
  have e1 : (onMessage s1 m).msgs = (s1.msgs ++ [m]).drop 501 := by
    show bufAppend s1.msgs m = _
    rw [bufAppend_overflow _ _ (by omega), h1]
  have e2 : (onStateChange s1 t).states = (s1.states ++ [t]).drop 501 := by
    show bufAppend s1.states t = _
    rw [bufAppend_overflow _ _ (by omega), h2]
  refine ⟨b1, b2, e1, ?_, e2, ?_⟩
  · rw [e1]
    simp [h1]
  · rw [e2]
    simp [h2]

/-- Witness for C3 on concrete buffers: an empty pair receiving one message
publish, and a pair of full length-1000 buffers overflowing. -/
theorem C3_buffer_bound_and_overflow_witness :
    (publishEvents (⟨[], []⟩ : BufState Nat Nat) [Sum.inl 7]).msgs.length ≤ 1000 ∧
    (publishEvents (⟨[], []⟩ : BufState Nat Nat) [Sum.inl 7]).states.length ≤ 1000 ∧
    (onMessage (⟨List.range 1000, List.range 1000⟩ : BufState Nat Nat) 5).msgs =
      (List.range 1000 ++ [5]).drop 501 ∧
    (onMessage (⟨List.range 1000, List.range 1000⟩ : BufState Nat Nat) 5).msgs.length = 500 ∧
    (onStateChange (⟨List.range 1000, List.range 1000⟩ : BufState Nat Nat) 9).states =
      (List.range 1000 ++ [9]).drop 501 ∧
    (onStateChange (⟨List.range 1000, List.range 1000⟩ : BufState Nat Nat) 9).states.length
      = 500 :=
  C3_buffer_bound_and_overflow Nat Nat ⟨[], []⟩ ⟨List.range 1000, List.range 1000⟩
    [Sum.inl 7] 5 9 (by simp) (by simp) (by simp) (by simp)

/-- Counterexample to claim C4: publishing the 1200 events `0..1199` into
an initially empty buffer leaves 699 events, not 500 — the trim to the
last 500 fires only once, when event 1000 pushes the length to 1001, and
the remaining 199 publishes grow the buffer again. -/
theorem C4_counterexample :
    (bufPublishAll ([] : List Nat) (List.range 1200)).length = 699 ∧
    ¬((bufPublishAll ([] : List Nat) (List.range 1200)).length = 500) := by
  rw [bufPublishAll_range_1200]
  simp

/-- Claim C4 as amended: after publishing 1200 events sequentially into an
initially empty message buffer (no drain in between), the buffer holds the
699 events numbered 501–1199 (0-indexed), in order. -/
theorem C4_amended_publish_1200 :
    (List.foldl onMessage (⟨[], []⟩ : BufState Nat Nat) (List.range 1200)).msgs =
      List.range' 501 699 ∧
    bufPublishAll ([] : List Nat) (List.range 1200) = List.range' 501 699 := by
  refine ⟨?_, bufPublishAll_range_1200⟩
  rw [foldl_onMessage]
  dsimp only
  exact bufPublishAll_range_1200

theorem runAgentLoop_always_tools (provider : List ChatMsg → ChatResponse)
    (execTool : String → String → String)
    (halways : ∀ ms, (provider ms).hasToolCalls = true) :
    ∀ (n : Nat) (msgs : List ChatMsg),
      runAgentLoop provider execTool n msgs = ("Max iterations reached", n) := by
  intro n
  induction n with
  | zero => intro msgs; rfl
  | succ k ih =>
    intro msgs
    rw [runAgentLoop]
    simp only [halways msgs, Bool.true_eq_false, if_false, ih]

/-- Claim C5: for every `max_iterations ≥ 1`, if every provider response
carries tool calls, `_run_agent_loop` performs exactly `max_iterations`
provider iterations and then returns the sentinel string
`"Max iterations reached"` (terminating, not raising). -/
theorem C5_loop_bound (provider : List ChatMsg → ChatResponse)
    (execTool : String → String → String) (maxIter : Nat) (msgs : List ChatMsg)
    (_hmax : 1 ≤ maxIter)
    (halways : ∀ ms, (provider ms).hasToolCalls = true) :
    runAgentLoop provider execTool maxIter msgs = ("Max iterations reached", maxIter) :=
  runAgentLoop_always_tools provider execTool halways maxIter msgs

/-- Witness for C5 with a concrete stub provider that always returns one
tool call, at `max_iterations = 3`. -/
theorem C5_loop_bound_witness :
    runAgentLoop (fun _ => ⟨none, [⟨"1", "t", "a"⟩]⟩) (fun _ _ => "r") 3 [] =
      ("Max iterations reached", 3) :=
  C5_loop_bound (fun _ => ⟨none, [⟨"1", "t", "a"⟩]⟩) (fun _ _ => "r") 3 []
    (by omega) (fun _ => rfl)

/-- Counterexample to claim C6: `release` never raises and is idempotent,
but it does not check marker ownership. Concretely: a SUBORDINATE acquires
(first conjunct: it holds, marker tagged `selfagent`), a PRIVILEGED caller
then force-overrides (second conjunct: marker becomes `2|20|main`), and
the displaced SUBORDINATE's `release` — its `_acquired` flag still set —
unlinks the PRIVILEGED holder's marker (third conjunct: marker gone, not
intact as the claim requires). -/
theorem C6_counterexample :
    ((FileLock.acquireIter ⟨false, false⟩ 1 10 ⟨none, true, true, true⟩).2).1.acquired
      = true ∧
    ((FileLock.acquireIter ⟨true, false⟩ 2 20
        (FileLock.acquireIter ⟨false, false⟩ 1 10 ⟨none, true, true, true⟩).1).1).marker =
      some "2|20|main" ∧
    ((FileLock.release
        (FileLock.acquireIter ⟨false, false⟩ 1 10 ⟨none, true, true, true⟩).2.1
        (FileLock.acquireIter ⟨true, false⟩ 2 20
          (FileLock.acquireIter ⟨false, false⟩ 1 10 ⟨none, true, true, true⟩).1).1).1).marker
      = none := by decide

/-- Claim C6 as amended: `release` is total (never raises), releasing a
never-acquired or already-released lock is a no-op, and a second release
after the same acquisition is a no-op; but `release` checks only the
caller's own `_acquired` flag and the marker's existence, never its
ownership, so a holder whose `_acquired` flag is still set deletes
whatever marker currently exists — in particular a displaced SUBORDINATE
deletes the PRIVILEGED holder's marker. -/
theorem C6_release_amended (lk lk2 : FileLock) (fs fs2 : FsState)
    (hnot : lk.acquired = false)
    (hacq : lk2.acquired = true) (hm : fs2.marker.isSome = true)
    (hd : fs2.deleteOk = true) :
    FileLock.release lk fs = (fs, lk) ∧
    ((FileLock.release lk2 fs2).2).acquired = false ∧
    FileLock.release (FileLock.release lk2 fs2).2 (FileLock.release lk2 fs2).1 =
      ((FileLock.release lk2 fs2).1, (FileLock.release lk2 fs2).2) ∧
    ((FileLock.release lk2 fs2).1).marker = none := by
  have r1 : ∀ (l : FileLock) (f : FsState), l.acquired = false →
      FileLock.release l f = (f, l) := by
    intro l f h
    simp [FileLock.release, h]
  have hrel : FileLock.release lk2 fs2 =
      ({fs2 with marker := none}, {lk2 with acquired := false}) := by
    simp [FileLock.release, hacq, hm, hd]
  refine ⟨r1 lk fs hnot, ?_, ?_, ?_⟩
  · rw [hrel]
  · rw [hrel]
    exact r1 _ _ rfl
  · rw [hrel]

/-- Witness for the amended C6: a concrete never-acquired lock, and a
concrete held lock released twice. -/
theorem C6_release_amended_witness :
    FileLock.release ⟨false, false⟩ ⟨some "9|9|selfagent", true, true, true⟩ =
      (⟨some "9|9|selfagent", true, true, true⟩, ⟨false, false⟩) ∧
    ((FileLock.release ⟨false, true⟩ ⟨some "7|7|selfagent", true, true, true⟩).2).acquired
      = false ∧
    FileLock.release (FileLock.release ⟨false, true⟩ ⟨some "7|7|selfagent", true, true, true⟩).2
        (FileLock.release ⟨false, true⟩ ⟨some "7|7|selfagent", true, true, true⟩).1 =
      ((FileLock.release ⟨false, true⟩ ⟨some "7|7|selfagent", true, true, true⟩).1,
       (FileLock.release ⟨false, true⟩ ⟨some "7|7|selfagent", true, true, true⟩).2) ∧
    ((FileLock.release ⟨false, true⟩ ⟨some "7|7|selfagent", true, true, true⟩).1).marker
      = none :=
  C6_release_amended ⟨false, false⟩ ⟨false, true⟩
    ⟨some "9|9|selfagent", true, true, true⟩ ⟨some "7|7|selfagent", true, true, true⟩
    rfl rfl rfl rfl

/-- Counterexample to claim C7: a PRIVILEGED `acquire` does NOT treat a
corrupt or unreadable marker as SUBORDINATE-held. With readable content
`"garbage"` (no `selfagent` substring) the override branch declines and
the call fails with the marker unchanged; with an unreadable marker
(`readOk = false`) the swallowed read exception likewise prevents any
overwrite. -/
theorem C7_counterexample :
    (FileLock.acquireLoop ⟨true, false⟩ 1 10 ⟨some "garbage", true, true, true⟩ 5).2.2
      = false ∧
    (FileLock.acquireLoop ⟨true, false⟩ 1 10 ⟨some "garbage", true, true, true⟩ 5).1.marker =
      some "garbage" ∧
    (FileLock.acquireLoop ⟨true, false⟩ 3 30 ⟨some "1|10|selfagent", false, true, true⟩ 5).2.2
      = false := by decide

/-- Claim C7 as amended: during a PRIVILEGED `acquire`, a marker whose
content cannot be read or whose content lacks the `selfagent` substring is
never overwritten: every poll iteration leaves the filesystem and lock
unchanged and the call fails once the timeout's poll budget is exhausted. -/
theorem C7_corrupt_marker_amended (lk : FileLock) (pid ts : Nat) (fs : FsState)
    (c : String) (fuel : Nat)
    (hmain : lk.is_main_agent = true) (hm : fs.marker = some c)
    (h : fs.readOk = false ∨ strContains c "selfagent" = false) :
    FileLock.acquireLoop lk pid ts fs fuel = (fs, lk, false) :=
  mainLoop_blocked lk pid ts fs c hmain hm h fuel

/-- Witness for the amended C7 at a concrete corrupt marker. -/
theorem C7_corrupt_marker_amended_witness :
    FileLock.acquireLoop ⟨true, false⟩ 1 10 ⟨some "garbage", true, true, true⟩ 5 =
      (⟨some "garbage", true, true, true⟩, ⟨true, false⟩, false) :=
  C7_corrupt_marker_amended ⟨true, false⟩ 1 10 ⟨some "garbage", true, true, true⟩
    "garbage" 5 rfl rfl (Or.inr (by decide))

/-- Claim C8: the drain snapshots both buffers and clears them atomically
(one step under the buffer mutex in the cooperative model): the snapshot
equals the pre-drain contents and both buffers are empty afterwards; a
drain performed after further publishes sees exactly those later publishes
(no event of the first snapshot reappears); and a tick whose two snapshots
are both empty returns without invoking the reasoning/tool loop. -/
theorem C8_drain_atomicity (μ σ : Type) (s s2 : BufState μ σ)
    (later : List μ) (laterS : List σ)
    (h1 : s2.msgs = []) (h2 : s2.states = []) :
    drainAll s = ((s.msgs, s.states), ⟨[], []⟩) ∧
    (drainAll (List.foldl onStateChange (List.foldl onMessage (drainAll s).2 later) laterS)).1 =
      (bufPublishAll [] later, bufPublishAll [] laterS) ∧
    performReflection s2 = (⟨[], []⟩, false) := by
  refine ⟨rfl, ?_, ?_⟩
  · show (drainAll (List.foldl onStateChange
      (List.foldl onMessage (⟨[], []⟩ : BufState μ σ) later) laterS)).1 = _
    rw [foldl_onMessage, foldl_onStateChange]
    dsimp only
    rfl
  · simp [performReflection, drainAll, h1, h2]

/-- Witness for C8 on concrete buffers. -/
theorem C8_drain_atomicity_witness :
    drainAll (⟨[3], [4]⟩ : BufState Nat Nat) = (([3], [4]), ⟨[], []⟩) ∧
    (drainAll (List.foldl onStateChange
        (List.foldl onMessage (drainAll (⟨[3], [4]⟩ : BufState Nat Nat)).2 [1, 2]) [5])).1 =
      (bufPublishAll [] [1, 2], bufPublishAll [] [5]) ∧
    performReflection (⟨[], []⟩ : BufState Nat Nat) = (⟨[], []⟩, false) :=
  C8_drain_atomicity Nat Nat ⟨[3], [4]⟩ ⟨[], []⟩ [1, 2] [5] rfl rfl

theorem reflectionLoop_no_cancel {μ σ : Type} (evs : List TickEvent) :
    ∀ s : BufState μ σ, TickEvent.cancel ∉ evs → (reflectionLoop s evs).2 = false := by
  induction evs with
  | nil =>
    intro s _
    rfl
  | cons e evs ih =>
    intro s hnc
    cases e with
    | cancel => exact absurd (List.mem_cons_self _ _) hnc
    | run f =>
      rw [reflectionLoop]
      exact ih _ (fun hm => hnc (List.mem_cons_of_mem _ hm))

/-- Claim C9: a failing reflection cycle is caught and the scheduler loop
continues: after a tick whose cycle raises (or not), the loop goes on to
the remaining ticks with both buffers cleared — the drained batch is not
requeued — and any run of ticks free of cancellation never makes the loop
terminate. -/
theorem C9_cycle_errors_nonfatal (μ σ : Type) (s : BufState μ σ) (fails : Bool)
    (rest evs : List TickEvent)
    (hnc : TickEvent.cancel ∉ evs) :
    reflectionLoop s (TickEvent.run fails :: rest) =
      reflectionLoop (⟨[], []⟩ : BufState μ σ) rest ∧
    (performReflectionE s fails).1 = ⟨[], []⟩ ∧
    (reflectionLoop s evs).2 = false := by
  refine ⟨?_, rfl, reflectionLoop_no_cancel evs s hnc⟩
  rw [reflectionLoop]
  have hclear : (performReflectionE s fails).1 = (⟨[], []⟩ : BufState μ σ) := rfl
  rw [hclear]

/-- Witness for C9: a concrete failing cycle over non-empty buffers,
followed by a successful one. -/
theorem C9_cycle_errors_nonfatal_witness :
    reflectionLoop (⟨[1], [2]⟩ : BufState Nat Nat)
        [TickEvent.run true, TickEvent.run false] =
      reflectionLoop (⟨[], []⟩ : BufState Nat Nat) [TickEvent.run false] ∧
    (performReflectionE (⟨[1], [2]⟩ : BufState Nat Nat) true).1 = ⟨[], []⟩ ∧
    (reflectionLoop (⟨[1], [2]⟩ : BufState Nat Nat)
        [TickEvent.run true, TickEvent.run false]).2 = false :=
  C9_cycle_errors_nonfatal Nat Nat ⟨[1], [2]⟩ true [TickEvent.run false]
    [TickEvent.run true, TickEvent.run false] (by decide)

theorem strContains_lower_memory (s : String)
    (h : strContains s "MEMORY.md" = true) :
    strContains (strLower s) "memory" = true := by
  unfold strContains at h ⊢
  rw [List.any_eq_true] at h ⊢
  obtain ⟨i, hi, hp⟩ := h
  refine ⟨i, ?_, ?_⟩
  · show i ∈ List.range ((s.data.map Char.toLower).length + 1)
    simpa using hi
  · rw [ List.isPrefixOf_iff_prefix] at hp ⊢
    have h1 : ("MEMORY.md".data.map Char.toLower) <+: ((s.data.drop i).map Char.toLower) :=
      List.IsPrefix.map Char.toLower hp
    have h2 : "memory".data <+: ("MEMORY.md".data.map Char.toLower) := by decide
    show "memory".data <+: ((s.data.map Char.toLower).drop i)
    rw [← List.map_drop]
    exact h2.trans h1

/-- Claim C10: the content written by `LockedWriteFileTool.execute` gets
the subconscious prefix exactly when the resolved path contains the
substring `MEMORY.md` and the stripped content does not already start with
the tag; all other paths are written unchanged. (The source's extra
`"memory" in str(filepath).lower()` conjunct is implied by
`"MEMORY.md" in str(filepath)`.) -/
theorem C10_memory_write_prefix (filepath content : String) :
    lockedWriteContent filepath content =
      if strContains filepath "MEMORY.md" then
        (if content.trim.startsWith "潜意识:" then content else "潜意识: " ++ content)
      else content := by
  unfold lockedWriteContent
  by_cases h : strContains filepath "MEMORY.md" = true
  · simp [strContains_lower_memory filepath h, h]
  · have h' : strContains filepath "MEMORY.md" = false := by simpa using h
    simp [h']
